import Mathlib

/-!
Verification of the local document persistence and autosave subsystem of
`DocumentEditor.tsx` (OfficeX Documents).

The component is embedded as a timed event-trace interpreter: the in-memory
`Document`, the lodash trailing-edge debounce of `saveDocument` (quiet period
1000 ms), the autosave gate `document.docId && document.title && document.body`,
the save indicator with its 2000 ms hide timer, `handleManualSave`,
`loadDocument` / navigation, and the IndexedDB object store `"documents"`
(keyPath `"docId"`) as an upsert key-value store.  Store transaction outcomes
are supplied by an oracle so that failing puts can be examined.

A completed save calls `setSaveTimeout`, which changes `saveDocument`'s
`useCallback` identity (its dependency list is `[saveTimeout]`) and so re-runs
the `[document, saveDocument]` autosave effect: while the in-memory document
passes the gate, every completed save re-schedules another save of that
document one quiet period later.  The program therefore re-puts a gated
document every ~1000 ms after a burst of edits and never quiesces until the
document fails the gate; the model captures this re-arm in `fireSave`.
-/

namespace Docs

/-- The persisted entity, `interface Document` in `DocumentEditor.tsx`:
`docId`, `title`, `body`, all strings. -/
structure Document where
  docId : String
  title : String
  body : String
deriving DecidableEq

/-- Modelled from the spec: the IndexedDB object store `"documents"` with
`keyPath: "docId"` used by `saveDocument`; `store.put(doc)` upserts the full
record under its key (overwrite in place, never duplicate). -/
def put (st : List Document) (d : Document) : List Document :=
  d :: st.filter (fun e => decide (e.docId ≠ d.docId))

/-- Modelled from the spec: `store.get(id)` returns the record stored under
`id`, or a well-defined "not found" result (`none`). -/
def get (st : List Document) (id : String) : Option Document :=
  st.find? (fun e => decide (e.docId = id))

/-- Modelled from the spec: `store.getAll()` returns every stored record,
order unspecified. -/
def getAll (st : List Document) : List Document := st

theorem get_put_self (st : List Document) (d : Document) :
    get (put st d) d.docId = some d := by
  simp [get, put]

/-- C7: for every Document `d`, `put(d)` followed by `get(d.docId)` yields a
Document equal to `d` (upsert then lookup on the same key returns the stored
value unchanged). -/
theorem put_get_roundtrip (st : List Document) (d : Document) :
    get (put st d) d.docId = some d :=
  get_put_self st d

/-- Character-wise lower-casing, modelling JavaScript
`String.prototype.toLowerCase` as used in `filteredDocuments`. -/
def jsToLower (s : String) : String := String.mk (s.data.map Char.toLower)

/-- `filteredDocuments` from `DocumentEditor.tsx`:
`documents.filter((doc) => doc.title.toLowerCase().includes(searchTerm.toLowerCase()))`,
with `includes` modelled as list-infix containment of the code units. -/
def filteredDocuments (documents : List Document) (searchTerm : String) :
    List Document :=
  documents.filter
    (fun doc => decide ((jsToLower searchTerm).data <:+: (jsToLower doc.title).data))

/-- C8: the registry filter returns exactly the subsequence of documents whose
case-folded title contains the case-folded search term as a substring,
preserving the order in which they were provided; the empty search term
returns every document. -/
theorem search_filter_spec (documents : List Document) (searchTerm : String) :
    List.Sublist (filteredDocuments documents searchTerm) documents ∧
    (∀ doc, doc ∈ filteredDocuments documents searchTerm ↔
      doc ∈ documents ∧ (jsToLower searchTerm).data <:+: (jsToLower doc.title).data) ∧
    filteredDocuments documents "" = documents := by
  refine ⟨List.filter_sublist documents, ?_, ?_⟩
  · intro doc
    simp [filteredDocuments]
  · simp [filteredDocuments, jsToLower]

/-- The autosave gate of the effect
`if (document.docId && document.title && document.body) saveDocument(document)`:
JavaScript string truthiness, i.e. all three fields non-empty. -/
def autosaveGate (d : Document) : Bool :=
  decide (d.docId ≠ "") && decide (d.title ≠ "") && decide (d.body ≠ "")

/-- The component state of `DocumentEditor`: active route `docId`, the
in-memory `document`, the pending lodash-debounce call (deadline and the last
arguments), the store contents, the log of issued puts (fire time and
document), `showSaveIndicator`, the pending indicator-hide timeout
(`saveTimeout`), and the `message` notices shown to the user. -/
structure EditorState where
  activeId : String
  doc : Document
  pending : Option (Nat × Document)
  store : List Document
  puts : List (Nat × Document)
  indicator : Bool
  indicatorHide : Option Nat
  messages : List String
deriving DecidableEq

/-- The body of the debounced `saveDocument` running at its deadline `dl` with
last arguments `d`: submits `store.put(doc)` (committing only if the oracle
says the transaction succeeds — the code installs no error handler and ignores
the outcome), clears any existing indicator timeout, shows the indicator
unconditionally, and schedules the hide timeout 2000 ms later.  Its
`setSaveTimeout` call changes `saveDocument`'s `useCallback` identity, which
re-runs the `[document, saveDocument]` autosave effect: when the current
in-memory document passes the gate, the (new) debounced
`saveDocument(document)` is called again, re-arming a save of the current
document one quiet period after this fire — whatever the put's outcome. -/
def fireSave (oracle : Nat → Bool) (s : EditorState) (dl : Nat) (d : Document) :
    EditorState :=
  { s with
    pending := if autosaveGate s.doc then some (dl + 1000, s.doc) else none
    store := if oracle s.puts.length then put s.store d else s.store
    puts := s.puts ++ [(dl, d)]
    indicator := true
    indicatorHide := some (dl + 2000) }

/-- Fire every debounce deadline that has been reached: each completed save
may re-arm another (see `fireSave`), so firing repeats while the re-armed
deadline is still due.  Every fire pushes the next deadline 1000 ms further,
so `now + 1` units of fuel always suffice. -/
def fireAll (oracle : Nat → Bool) : Nat → EditorState → Nat → EditorState
  | 0, s, _ => s
  | fuel + 1, s, now =>
    match s.pending with
    | some (dl, d) =>
      if dl ≤ now then fireAll oracle fuel (fireSave oracle s dl d) now else s
    | none => s

/-- Fire the indicator-hide timeout (`setShowSaveIndicator(false)`) if its
deadline has been reached. -/
def hideDue (s : EditorState) (now : Nat) : EditorState :=
  match s.indicatorHide with
  | some hd => if hd ≤ now then { s with indicator := false, indicatorHide := none } else s
  | none => s

/-- Advance time to `now`: run every debounce fire that has come due (a
completed save may re-arm the next — see `fireSave`), then the indicator-hide
timeout. -/
def tick (oracle : Nat → Bool) (s : EditorState) (now : Nat) : EditorState :=
  hideDue (fireAll oracle (now + 1) s now) now

/-- `setDocument(d)` together with the autosave effect on
`[document, saveDocument]`: the
in-memory document is replaced, and when the gate passes, the debounced
`saveDocument(d)` is called — which cancels any pending timer and restarts it
for a full quiet period (1000 ms), recording `d` as the latest snapshot. -/
def setDocument (s : EditorState) (now : Nat) (d : Document) : EditorState :=
  let s1 := { s with doc := d }
  if autosaveGate d then { s1 with pending := some (now + 1000, d) } else s1

/-- `handleManualSave`: calls the debounced `saveDocument(document)` (which
only restarts the debounce timer with the current snapshot) and then
immediately reports `"Document saved successfully"`. -/
def handleManualSave (s : EditorState) (now : Nat) : EditorState :=
  { s with
    pending := some (now + 1000, s.doc)
    messages := s.messages ++ ["Document saved successfully"] }

/-- The in-memory Document seeded by `loadDocument` when `store.get(id)` finds
nothing. -/
def seedDocument (id : String) : Document :=
  { docId := id, title := "Untitled Document", body := "" }

/-- `loadDocument(id)` after a `docId` route change: reads `store.get(id)` and
`setDocument`s either the stored record or the placeholder seed; the update of
`document` re-runs the gated autosave effect. -/
def loadDocument (s : EditorState) (now : Nat) (id : String) : EditorState :=
  let s1 := { s with activeId := id }
  match get s1.store id with
  | some d => setDocument s1 now d
  | none => setDocument s1 now (seedDocument id)

/-- External stimuli of the component: a content-change notification (a title
or body edit through `setDocument`), the manual save action, and navigation to
a document identifier. -/
inductive Event where
  | change (d : Document)
  | manualSave
  | navigate (id : String)
deriving DecidableEq

/-- Process one timed event: run due timers, then the event handler. -/
def step (oracle : Nat → Bool) (s : EditorState) (e : Nat × Event) : EditorState :=
  let s1 := tick oracle s e.1
  match e.2 with
  | Event.change d => setDocument s1 e.1 d
  | Event.manualSave => handleManualSave s1 e.1
  | Event.navigate id => loadDocument s1 e.1 id

/-- Process a time-ordered list of events. -/
def runEvents (oracle : Nat → Bool) (s : EditorState) (es : List (Nat × Event)) :
    EditorState :=
  es.foldl (step oracle) s

/-- Fire the last pending debounce call once and let the indicator display
elapse.  The result is the program's quiescent state exactly when its
`pending` is `none` — i.e. when the in-memory document fails the gate, as in
every `run`-based theorem below.  While the document still passes the gate the
program never quiesces (the completed save re-arms another — see `fireSave`),
and time-indexed `tick` observations are used instead. -/
def flush (oracle : Nat → Bool) (s : EditorState) : EditorState :=
  match s.pending with
  | some (dl, d) =>
    let s1 := fireSave oracle s dl d
    { s1 with indicator := false, indicatorHide := none }
  | none => { s with indicator := false, indicatorHide := none }

/-- Process a trace of timed events, then fire the last pending debounce call
and let the indicator elapse (`flush`). -/
def run (oracle : Nat → Bool) (s : EditorState) (es : List (Nat × Event)) :
    EditorState :=
  flush oracle (runEvents oracle s es)

/-- The initial component state for route identifier `id`: empty store, no
pending timer, the `useState` initial document. -/
def initState (id : String) : EditorState :=
  { activeId := id
    doc := { docId := id, title := "Untitled Document", body := "" }
    pending := none
    store := []
    puts := []
    indicator := false
    indicatorHide := none
    messages := [] }

theorem hideDue_activeId (s : EditorState) (now : Nat) :
    (hideDue s now).activeId = s.activeId := by
  unfold hideDue; split
  · split <;> simp
  · rfl

theorem hideDue_doc (s : EditorState) (now : Nat) : (hideDue s now).doc = s.doc := by
  unfold hideDue; split
  · split <;> simp
  · rfl

theorem hideDue_pending (s : EditorState) (now : Nat) :
    (hideDue s now).pending = s.pending := by
  unfold hideDue; split
  · split <;> simp
  · rfl

theorem hideDue_store (s : EditorState) (now : Nat) :
    (hideDue s now).store = s.store := by
  unfold hideDue; split
  · split <;> simp
  · rfl

theorem hideDue_puts (s : EditorState) (now : Nat) : (hideDue s now).puts = s.puts := by
  unfold hideDue; split
  · split <;> simp
  · rfl

theorem hideDue_messages (s : EditorState) (now : Nat) :
    (hideDue s now).messages = s.messages := by
  unfold hideDue; split
  · split <;> simp
  · rfl

theorem fireSave_pending (oracle : Nat → Bool) (s : EditorState) (dl : Nat)
    (d : Document) :
    (fireSave oracle s dl d).pending =
      (if autosaveGate s.doc then some (dl + 1000, s.doc) else none) := rfl

theorem fireAll_of_none (oracle : Nat → Bool) (fuel : Nat) (s : EditorState)
    (now : Nat) (hp : s.pending = none) : fireAll oracle fuel s now = s := by
  cases fuel with
  | zero => rfl
  | succ n => simp only [fireAll, hp]

theorem fireAll_not_due (oracle : Nat → Bool) (fuel : Nat) (s : EditorState)
    (now dl : Nat) (d : Document)
    (hp : s.pending = some (dl, d)) (hlt : now < dl) :
    fireAll oracle fuel s now = s := by
  cases fuel with
  | zero => rfl
  | succ n =>
    simp only [fireAll, hp]
    rw [if_neg (by omega)]

theorem fireAll_fire_once (oracle : Nat → Bool) (fuel : Nat) (s : EditorState)
    (now dl : Nat) (d : Document)
    (hp : s.pending = some (dl, d)) (hdue : dl ≤ now) (hlt : now < dl + 1000) :
    fireAll oracle (fuel + 1) s now = fireSave oracle s dl d := by
  have heq : fireAll oracle (fuel + 1) s now =
      fireAll oracle fuel (fireSave oracle s dl d) now := by
    simp only [fireAll, hp]
    rw [if_pos hdue]
  rw [heq]
  by_cases hg : autosaveGate s.doc = true
  · exact fireAll_not_due oracle fuel _ now (dl + 1000) s.doc
      (by rw [fireSave_pending, if_pos hg]) (by omega)
  · exact fireAll_of_none oracle fuel _ now (by rw [fireSave_pending, if_neg hg])

theorem fireAll_after_fire (oracle : Nat → Bool) (fuel : Nat) (s : EditorState)
    (now dl : Nat) (d : Document)
    (hp : s.pending = some (dl, d)) (hdue : dl ≤ now) (hlt : now < dl + 2000) :
    (fireAll oracle (fuel + 1) s now).indicator = true ∧
    (∃ h, (fireAll oracle (fuel + 1) s now).indicatorHide = some h ∧ now < h) ∧
    (fireAll oracle (fuel + 1) s now).activeId = s.activeId := by
  have heq : fireAll oracle (fuel + 1) s now =
      fireAll oracle fuel (fireSave oracle s dl d) now := by
    simp only [fireAll, hp]
    rw [if_pos hdue]
  rw [heq]
  by_cases hg : autosaveGate s.doc = true
  · have hpend1 : (fireSave oracle s dl d).pending = some (dl + 1000, s.doc) := by
      rw [fireSave_pending, if_pos hg]
    by_cases hnd : now < dl + 1000
    · rw [fireAll_not_due oracle fuel _ now (dl + 1000) s.doc hpend1 hnd]
      exact ⟨rfl, ⟨dl + 2000, rfl, by omega⟩, rfl⟩
    · cases fuel with
      | zero =>
        exact ⟨rfl, ⟨dl + 2000, rfl, by omega⟩, rfl⟩
      | succ m =>
        rw [fireAll_fire_once oracle m _ now (dl + 1000) s.doc hpend1
          (by omega) (by omega)]
        exact ⟨rfl, ⟨dl + 1000 + 2000, rfl, by omega⟩, rfl⟩
  · have hpend1 : (fireSave oracle s dl d).pending = none := by
      rw [fireSave_pending, if_neg hg]
    rw [fireAll_of_none oracle fuel _ now hpend1]
    exact ⟨rfl, ⟨dl + 2000, rfl, by omega⟩, rfl⟩

theorem setDocument_gated (s : EditorState) (now : Nat) (d : Document)
    (h : autosaveGate d = true) :
    setDocument s now d = { s with doc := d, pending := some (now + 1000, d) } := by
  simp only [setDocument, h, if_true]

theorem setDocument_ungated (s : EditorState) (now : Nat) (d : Document)
    (h : autosaveGate d = false) :
    setDocument s now d = { s with doc := d } := by
  simp [setDocument, h]

theorem flush_of_some (oracle : Nat → Bool) (s : EditorState) (dl : Nat)
    (d : Document) (hp : s.pending = some (dl, d)) :
    (flush oracle s).puts = s.puts ++ [(dl, d)] ∧
    (flush oracle s).store = (if oracle s.puts.length then put s.store d else s.store) ∧
    (flush oracle s).messages = s.messages ∧
    (flush oracle s).doc = s.doc ∧
    (flush oracle s).activeId = s.activeId := by
  simp only [flush, hp, fireSave]
  simp

theorem flush_of_none (oracle : Nat → Bool) (s : EditorState)
    (hp : s.pending = none) :
    (flush oracle s).puts = s.puts ∧ (flush oracle s).store = s.store ∧
    (flush oracle s).messages = s.messages ∧ (flush oracle s).doc = s.doc ∧
    (flush oracle s).activeId = s.activeId := by
  simp only [flush, hp]
  simp

/-- C10: for every invocation of the manual save action, the user-visible
success report `"Document saved successfully"` is produced unconditionally at
invocation time, before any store transaction for that save has run or
committed: the puts log and the store are untouched by the invocation itself,
whatever the state. -/
theorem manual_save_message_unconditional (s : EditorState) (now : Nat) :
    (handleManualSave s now).messages = s.messages ++ ["Document saved successfully"] ∧
    (handleManualSave s now).puts = s.puts ∧
    (handleManualSave s now).store = s.store :=
  ⟨rfl, rfl, rfl⟩

/-- C2 counterexample: a change arrives at 0 ms (debounce deadline 1000 ms) and
the manual save action is invoked at 500 ms while that timer is pending.  The
success message is reported at once, yet at 1400 ms — 900 ms after the manual
save and past the original deadline — no put has been issued; the first put of
the save lands only at 1500 ms, a full quiet period after the manual save.
The manual save therefore does not issue an immediate put. -/
theorem manual_save_not_immediate_cex :
    (tick (fun _ => true)
      (runEvents (fun _ => true) (initState "a")
        [(0, Event.change { docId := "a", title := "T", body := "x" }),
         (500, Event.manualSave)]) 1400).puts = [] ∧
    (runEvents (fun _ => true) (initState "a")
        [(0, Event.change { docId := "a", title := "T", body := "x" }),
         (500, Event.manualSave)]).messages = ["Document saved successfully"] ∧
    (tick (fun _ => true)
      (runEvents (fun _ => true) (initState "a")
        [(0, Event.change { docId := "a", title := "T", body := "x" }),
         (500, Event.manualSave)]) 1500).puts
      = [(1500, { docId := "a", title := "T", body := "x" })] := by
  exact ⟨by decide, by decide, by decide⟩

/-- C2 (amended): invoking the manual save action while a debounce timer is
pending cancels that timer but only restarts the debounce for a full quiet
period with the current in-memory snapshot: the success message is reported
immediately, yet no put is issued at any time before `t + 1000`, and the first
put of the save lands exactly at `t + 1000` carrying the current snapshot,
committing it when the transaction succeeds.  (Afterwards the save-completion
effect re-run re-arms further saves while the document stays gated — see
`fireSave`.) -/
theorem manual_save_restarts_debounce (oracle : Nat → Bool) (s : EditorState)
    (t dl : Nat) (d : Document)
    (hp : s.pending = some (dl, d)) :
    (handleManualSave s t).pending = some (t + 1000, s.doc) ∧
    (handleManualSave s t).puts = s.puts ∧
    (handleManualSave s t).messages = s.messages ++ ["Document saved successfully"] ∧
    (∀ now, now < t + 1000 → (tick oracle (handleManualSave s t) now).puts = s.puts) ∧
    (tick oracle (handleManualSave s t) (t + 1000)).puts =
      s.puts ++ [(t + 1000, s.doc)] ∧
    get (tick (fun _ => true) (handleManualSave s t) (t + 1000)).store s.doc.docId
      = some s.doc := by
  have hpend : (handleManualSave s t).pending = some (t + 1000, s.doc) := rfl
  refine ⟨rfl, rfl, rfl, ?_, ?_, ?_⟩
  · intro now hlt
    show (hideDue (fireAll oracle (now + 1) (handleManualSave s t) now) now).puts = s.puts
    rw [fireAll_not_due oracle (now + 1) _ now (t + 1000) s.doc hpend hlt,
      hideDue_puts]
    rfl
  · show (hideDue (fireAll oracle (t + 1000 + 1) (handleManualSave s t) (t + 1000))
      (t + 1000)).puts = s.puts ++ [(t + 1000, s.doc)]
    rw [fireAll_fire_once oracle (t + 1000) _ (t + 1000) (t + 1000) s.doc hpend
      (Nat.le_refl _) (by omega), hideDue_puts]
    rfl
  · show get (hideDue (fireAll (fun _ => true) (t + 1000 + 1) (handleManualSave s t)
      (t + 1000)) (t + 1000)).store s.doc.docId = some s.doc
    rw [fireAll_fire_once (fun _ => true) (t + 1000) _ (t + 1000) (t + 1000) s.doc hpend
      (Nat.le_refl _) (by omega), hideDue_store]
    exact get_put_self s.store s.doc

/-- Witness for `manual_save_restarts_debounce` at a concrete pending state. -/
theorem manual_save_restarts_debounce_witness :
    ({ activeId := "a", doc := { docId := "a", title := "T", body := "x" },
       pending := some (1000, { docId := "a", title := "T", body := "x" }),
       store := [], puts := [], indicator := false, indicatorHide := none,
       messages := [] } : EditorState).pending
        = some (1000, { docId := "a", title := "T", body := "x" }) ∧
    (handleManualSave
      { activeId := "a", doc := { docId := "a", title := "T", body := "x" },
        pending := some (1000, { docId := "a", title := "T", body := "x" }),
        store := [], puts := [], indicator := false, indicatorHide := none,
        messages := [] } 500).pending
        = some (1500, { docId := "a", title := "T", body := "x" }) := by
  refine ⟨by decide, ?_⟩
  exact (manual_save_restarts_debounce (fun _ => true)
    { activeId := "a", doc := { docId := "a", title := "T", body := "x" },
      pending := some (1000, { docId := "a", title := "T", body := "x" }),
      store := [], puts := [], indicator := false, indicatorHide := none,
      messages := [] } 500 1000 { docId := "a", title := "T", body := "x" }
    (by decide)).1

/-- C1: the debounce-coalescing claim fails on the code.  Failing input: a
single gated content-change notification at 0 ms (N = 1).  The put at 1000 ms
calls `setSaveTimeout`, which changes `saveDocument`'s `useCallback` identity
and re-runs the `[document, saveDocument]` autosave effect; the unchanged,
still gate-passing document is re-scheduled, so the same snapshot is put again
at 2000 ms and at 3000 ms — three puts by 3000 ms where the claim requires
exactly one put for the whole sequence. -/
theorem debounce_effect_loop_repeated_puts :
    (tick (fun _ => true)
      (runEvents (fun _ => true) (initState "a")
        [(0, Event.change { docId := "a", title := "T", body := "x" })]) 3000).puts
      = [(1000, { docId := "a", title := "T", body := "x" }),
         (2000, { docId := "a", title := "T", body := "x" }),
         (3000, { docId := "a", title := "T", body := "x" })] := by
  decide

/-- C3 counterexample: a gated change arrives at 0 ms and the debounce fires at
1000 ms with a put whose transaction fails (oracle constantly false).  The
write cycle still shows the Saved indicator, reports no failure message, and
the store is left empty — contrary to the claim that the scheduler never
enters Saved and reports a save failure for that cycle. -/
theorem failed_put_shows_saved_cex :
    (tick (fun _ => false)
      (runEvents (fun _ => false) (initState "a")
        [(0, Event.change { docId := "a", title := "T", body := "x" })]) 1000).indicator
      = true ∧
    (tick (fun _ => false)
      (runEvents (fun _ => false) (initState "a")
        [(0, Event.change { docId := "a", title := "T", body := "x" })]) 1000).messages
      = [] ∧
    (tick (fun _ => false)
      (runEvents (fun _ => false) (initState "a")
        [(0, Event.change { docId := "a", title := "T", body := "x" })]) 1000).store
      = [] := by
  exact ⟨by decide, by decide, by decide⟩

/-- C3 (amended): a put whose transaction fails leaves the store unchanged,
but the code does not detect the failure: the indicator still enters Saved and
no failure message is reported.  No retry state distinguishes the failure from
a success — the save completion re-arms the debounce with the latest in-memory
snapshot in exactly the same way whatever the transaction outcome, so while
the document stays gated a full write of the latest snapshot is automatically
re-attempted one quiet period later; a manual save likewise re-attempts a full
write of the latest snapshot, committing it when its transaction succeeds. -/
theorem failed_put_undetected (oracle : Nat → Bool) (s : EditorState)
    (dl t : Nat) (d : Document)
    (hfail : oracle s.puts.length = false) :
    (fireSave oracle s dl d).store = s.store ∧
    (fireSave oracle s dl d).indicator = true ∧
    (fireSave oracle s dl d).messages = s.messages ∧
    (∀ oracle2, (fireSave oracle s dl d).pending = (fireSave oracle2 s dl d).pending) ∧
    (autosaveGate s.doc = true →
      (fireSave oracle s dl d).pending = some (dl + 1000, s.doc)) ∧
    get (tick (fun _ => true) (handleManualSave (fireSave oracle s dl d) t)
      (t + 1000)).store s.doc.docId = some s.doc := by
  refine ⟨?_, rfl, rfl, fun oracle2 => rfl, ?_, ?_⟩
  · simp only [fireSave, hfail]
    simp
  · intro hg
    rw [fireSave_pending, if_pos hg]
  · have hpend : (handleManualSave (fireSave oracle s dl d) t).pending =
        some (t + 1000, (fireSave oracle s dl d).doc) := rfl
    show get (hideDue (fireAll (fun _ => true) (t + 1000 + 1)
      (handleManualSave (fireSave oracle s dl d) t) (t + 1000)) (t + 1000)).store
      s.doc.docId = some s.doc
    rw [fireAll_fire_once (fun _ => true) (t + 1000) _ (t + 1000) (t + 1000)
      (fireSave oracle s dl d).doc hpend (Nat.le_refl _) (by omega), hideDue_store]
    exact get_put_self (fireSave oracle s dl d).store s.doc

/-- Witness for `failed_put_undetected` at a concrete state and oracle. -/
theorem failed_put_undetected_witness :
    (fun _ => false : Nat → Bool) ((initState "a").puts.length) = false ∧
    (fireSave (fun _ => false) (initState "a") 1000
      { docId := "a", title := "T", body := "x" }).indicator = true := by
  refine ⟨by decide, ?_⟩
  exact (failed_put_undetected (fun _ => false) (initState "a")
    1000 2000 { docId := "a", title := "T", body := "x" } (by decide)).2.1

/-- C4 counterexample: document a is edited at 0 ms (debounce deadline
1000 ms); at 500 ms the route changes to the fresh identifier b (not in the
store, so only the placeholder is seeded and the pending timer survives).  At
1000 ms document a's save completes — and the shared indicator turns Saved
while b is the active document: the stale completion is not ignored. -/
theorem stale_completion_not_ignored_cex :
    (tick (fun _ => true)
      (runEvents (fun _ => true) (initState "a")
        [(0, Event.change { docId := "a", title := "TA", body := "x" }),
         (500, Event.navigate "b")]) 1000).activeId = "b" ∧
    (tick (fun _ => true)
      (runEvents (fun _ => true) (initState "a")
        [(0, Event.change { docId := "a", title := "TA", body := "x" }),
         (500, Event.navigate "b")]) 1000).indicator = true ∧
    (tick (fun _ => true)
      (runEvents (fun _ => true) (initState "a")
        [(0, Event.change { docId := "a", title := "TA", body := "x" }),
         (500, Event.navigate "b")]) 1000).puts
      = [(1000, { docId := "a", title := "TA", body := "x" })] := by
  exact ⟨by decide, by decide, by decide⟩

/-- C4 (amended): the save indicator is a single piece of component state with
no stale-completion guard: whenever a pending save for some document completes
(within its 2000 ms display window), the indicator turns Saved even when that
document is no longer the active one; the active identifier is not consulted. -/
theorem stale_completion_sets_indicator (oracle : Nat → Bool) (s : EditorState)
    (now dl : Nat) (d : Document)
    (hp : s.pending = some (dl, d)) (hdue : dl ≤ now) (hdisp : now < dl + 2000)
    (hstale : d.docId ≠ s.activeId) :
    (tick oracle s now).indicator = true ∧
    (tick oracle s now).activeId = s.activeId := by
  obtain ⟨hind, ⟨h, hh, hgt⟩, hact⟩ :=
    fireAll_after_fire oracle now s now dl d hp hdue hdisp
  have hhd : hideDue (fireAll oracle (now + 1) s now) now =
      fireAll oracle (now + 1) s now := by
    simp only [hideDue, hh]
    rw [if_neg (by omega)]
  constructor
  · show (hideDue (fireAll oracle (now + 1) s now) now).indicator = true
    rw [hhd]
    exact hind
  · show (hideDue (fireAll oracle (now + 1) s now) now).activeId = s.activeId
    rw [hideDue_activeId]
    exact hact

/-- Witness for `stale_completion_sets_indicator` at a concrete stale state. -/
theorem stale_completion_sets_indicator_witness :
    (({ activeId := "b", doc := { docId := "b", title := "Untitled Document", body := "" },
        pending := some (1000, { docId := "a", title := "TA", body := "x" }),
        store := [], puts := [], indicator := false, indicatorHide := none,
        messages := [] } : EditorState).pending
          = some (1000, { docId := "a", title := "TA", body := "x" }) ∧
      (1000 ≤ 1000 ∧ 1000 < 1000 + 2000) ∧
      ({ docId := "a", title := "TA", body := "x" } : Document).docId ≠ "b") ∧
    (tick (fun _ => true)
      { activeId := "b", doc := { docId := "b", title := "Untitled Document", body := "" },
        pending := some (1000, { docId := "a", title := "TA", body := "x" }),
        store := [], puts := [], indicator := false, indicatorHide := none,
        messages := [] } 1000).indicator = true := by
  refine ⟨⟨by decide, ⟨by decide, by decide⟩, by decide⟩, ?_⟩
  exact (stale_completion_sets_indicator (fun _ => true)
    { activeId := "b", doc := { docId := "b", title := "Untitled Document", body := "" },
      pending := some (1000, { docId := "a", title := "TA", body := "x" }),
      store := [], puts := [], indicator := false, indicatorHide := none,
      messages := [] } 1000 1000 { docId := "a", title := "TA", body := "x" }
    (by decide) (by decide) (by decide) (by decide)).1

/-- C5 counterexample: document a is edited at 0 ms and saved at 1000 ms; the
body is then cleared at 1100 ms (the gate blocks the autosave notification),
and the manual save action is invoked at 1200 ms.  The manual save path has no
gate, so a second put is issued at 2200 ms carrying the snapshot with an empty
body — a put of a Document one of whose three fields is empty. -/
theorem manual_save_puts_ill_formed_cex :
    (run (fun _ => true) (initState "a")
        [(0, Event.change { docId := "a", title := "T", body := "x" }),
         (1100, Event.change { docId := "a", title := "T", body := "" }),
         (1200, Event.manualSave)]).puts
      = [(1000, { docId := "a", title := "T", body := "x" }),
         (2200, { docId := "a", title := "T", body := "" })] ∧
    autosaveGate { docId := "a", title := "T", body := "" } = false := by
  exact ⟨by decide, by decide⟩

/-- The pending debounce call, if any, carries a gate-passing snapshot. -/
def pendingGated (s : EditorState) : Bool :=
  match s.pending with
  | none => true
  | some (_, d) => autosaveGate d

/-- Every put issued so far carried a gate-passing snapshot. -/
def putsGated (s : EditorState) : Bool :=
  s.puts.all (fun p => autosaveGate p.2)

/-- Whether an event is the manual save action. -/
def isManual : Event → Bool
  | Event.manualSave => true
  | _ => false

theorem fireSave_invariant (oracle : Nat → Bool) (s : EditorState) (dl : Nat)
    (d : Document) (hd : autosaveGate d = true) (h2 : putsGated s = true) :
    pendingGated (fireSave oracle s dl d) = true ∧
    putsGated (fireSave oracle s dl d) = true := by
  constructor
  · unfold pendingGated
    rw [fireSave_pending]
    by_cases hg : autosaveGate s.doc = true
    · rw [if_pos hg]
      exact hg
    · rw [if_neg hg]
  · simp only [putsGated, fireSave] at h2 ⊢
    simp [List.all_append, h2, hd]

theorem fireAll_invariant (oracle : Nat → Bool) (fuel : Nat) (s : EditorState)
    (now : Nat) (h1 : pendingGated s = true) (h2 : putsGated s = true) :
    pendingGated (fireAll oracle fuel s now) = true ∧
    putsGated (fireAll oracle fuel s now) = true := by
  induction fuel generalizing s with
  | zero => exact ⟨h1, h2⟩
  | succ n ih =>
    cases hp : s.pending with
    | none =>
      rw [fireAll_of_none oracle (n + 1) s now hp]
      exact ⟨h1, h2⟩
    | some p =>
      obtain ⟨dl, d⟩ := p
      have hd : autosaveGate d = true := by
        unfold pendingGated at h1
        rw [hp] at h1
        exact h1
      by_cases hle : dl ≤ now
      · have heq : fireAll oracle (n + 1) s now =
            fireAll oracle n (fireSave oracle s dl d) now := by
          simp only [fireAll, hp]
          rw [if_pos hle]
        rw [heq]
        have hfs := fireSave_invariant oracle s dl d hd h2
        exact ih (fireSave oracle s dl d) hfs.1 hfs.2
      · rw [fireAll_not_due oracle (n + 1) s now dl d hp (by omega)]
        exact ⟨h1, h2⟩

theorem hideDue_invariant (s : EditorState) (now : Nat)
    (h1 : pendingGated s = true) (h2 : putsGated s = true) :
    pendingGated (hideDue s now) = true ∧ putsGated (hideDue s now) = true := by
  constructor
  · unfold pendingGated
    rw [hideDue_pending]
    exact h1
  · unfold putsGated
    rw [hideDue_puts]
    exact h2

theorem setDocument_invariant (s : EditorState) (now : Nat) (d : Document)
    (h1 : pendingGated s = true) (h2 : putsGated s = true) :
    pendingGated (setDocument s now d) = true ∧
    putsGated (setDocument s now d) = true := by
  by_cases hg : autosaveGate d = true
  · rw [setDocument_gated s now d hg]
    exact ⟨by simp [pendingGated, hg], h2⟩
  · rw [setDocument_ungated s now d (by simpa using hg)]
    exact ⟨h1, h2⟩

theorem loadDocument_invariant (s : EditorState) (now : Nat) (id : String)
    (h1 : pendingGated s = true) (h2 : putsGated s = true) :
    pendingGated (loadDocument s now id) = true ∧
    putsGated (loadDocument s now id) = true := by
  simp only [loadDocument]
  cases hg : get ({ s with activeId := id } : EditorState).store id with
  | some d => exact setDocument_invariant _ now d h1 h2
  | none => exact setDocument_invariant _ now (seedDocument id) h1 h2

theorem step_invariant (oracle : Nat → Bool) (s : EditorState) (e : Nat × Event)
    (hnm : isManual e.2 = false)
    (h1 : pendingGated s = true) (h2 : putsGated s = true) :
    pendingGated (step oracle s e) = true ∧ putsGated (step oracle s e) = true := by
  obtain ⟨t, ev⟩ := e
  have htick := fireAll_invariant oracle (t + 1) s t h1 h2
  have htick2 := hideDue_invariant (fireAll oracle (t + 1) s t) t htick.1 htick.2
  cases ev with
  | change d => exact setDocument_invariant _ t d htick2.1 htick2.2
  | manualSave => simp [isManual] at hnm
  | navigate id => exact loadDocument_invariant _ t id htick2.1 htick2.2

theorem runEvents_invariant (oracle : Nat → Bool) (s : EditorState)
    (es : List (Nat × Event))
    (hnm : es.all (fun e => !isManual e.2) = true)
    (h1 : pendingGated s = true) (h2 : putsGated s = true) :
    pendingGated (runEvents oracle s es) = true ∧
    putsGated (runEvents oracle s es) = true := by
  induction es generalizing s with
  | nil => exact ⟨h1, h2⟩
  | cons e rest ih =>
    simp only [List.all_cons, Bool.and_eq_true, Bool.not_eq_eq_eq_not, Bool.not_true] at hnm
    have hstep := step_invariant oracle s e (by simpa using hnm.1) h1 h2
    simpa only [runEvents, List.foldl_cons] using
      ih (step oracle s e) (by simpa [List.all_eq_true] using hnm.2) hstep.1 hstep.2

theorem flush_invariant (oracle : Nat → Bool) (s : EditorState)
    (h1 : pendingGated s = true) (h2 : putsGated s = true) :
    putsGated (flush oracle s) = true := by
  unfold flush
  cases hp : s.pending with
  | none => exact h2
  | some p =>
    obtain ⟨dl, d⟩ := p
    have hd : autosaveGate d = true := by
      unfold pendingGated at h1
      rw [hp] at h1
      exact h1
    have hfs := fireSave_invariant oracle s dl d hd h2
    unfold putsGated at hfs ⊢
    simpa using hfs.2

/-- C5 (amended): every put issued by the autosave path carries a well-formed
Document — for any trace of content-change notifications and navigations
(no manual save), starting from a state whose pending snapshot and issued puts
all pass the gate, every put in the final log has `docId`, `title` and `body`
non-empty.  The manual save action bypasses this gate and can put a Document
with an empty field (see the counterexample). -/
theorem autosave_puts_well_formed (oracle : Nat → Bool) (s : EditorState)
    (es : List (Nat × Event))
    (hnm : es.all (fun e => !isManual e.2) = true)
    (h1 : pendingGated s = true) (h2 : putsGated s = true) :
    ∀ p ∈ (run oracle s es).puts, autosaveGate p.2 = true := by
  have hre := runEvents_invariant oracle s es hnm h1 h2
  have hfl := flush_invariant oracle (runEvents oracle s es) hre.1 hre.2
  unfold putsGated at hfl
  rw [List.all_eq_true] at hfl
  intro p hpmem
  exact hfl p hpmem

/-- Witness for `autosave_puts_well_formed` on a concrete gated trace. -/
theorem autosave_puts_well_formed_witness :
    (([(0, Event.change { docId := "a", title := "T", body := "x" }),
       (700, Event.change { docId := "a", title := "T", body := "xy" })]
        : List (Nat × Event)).all (fun e => !isManual e.2) = true ∧
      pendingGated (initState "a") = true ∧ putsGated (initState "a") = true) ∧
    ∀ p ∈ (run (fun _ => true) (initState "a")
        [(0, Event.change { docId := "a", title := "T", body := "x" }),
         (700, Event.change { docId := "a", title := "T", body := "xy" })]).puts,
      autosaveGate p.2 = true := by
  refine ⟨⟨by decide, by decide, by decide⟩, ?_⟩
  exact autosave_puts_well_formed (fun _ => true) (initState "a")
    [(0, Event.change { docId := "a", title := "T", body := "x" }),
     (700, Event.change { docId := "a", title := "T", body := "xy" })]
    (by decide) (by decide) (by decide)

theorem get_eq_none_not_mem (st : List Document) (id : String)
    (hg : get st id = none) : ∀ d ∈ st, d.docId ≠ id := by
  unfold get at hg
  rw [List.find?_eq_none] at hg
  intro d hd
  have := hg d hd
  simpa using this

/-- C6: activating a fresh identifier `id` with no matching store record seeds
only the in-memory Document `{docId: id, title: "Untitled Document", body: ""}`
and, run to quiescence with no edits, performs no store write: the store and
the puts log are unchanged, and `getAll()` contains no record whose key is
`id`. -/
theorem activation_no_write (oracle : Nat → Bool) (s : EditorState)
    (id : String) (t : Nat)
    (hp : s.pending = none) (hg : get s.store id = none) :
    (run oracle s [(t, Event.navigate id)]).doc = seedDocument id ∧
    (run oracle s [(t, Event.navigate id)]).store = s.store ∧
    (run oracle s [(t, Event.navigate id)]).puts = s.puts ∧
    ∀ d ∈ getAll (run oracle s [(t, Event.navigate id)]).store, d.docId ≠ id := by
  have hfd : fireAll oracle (t + 1) s t = s := fireAll_of_none oracle (t + 1) s t hp
  have hseed : autosaveGate (seedDocument id) = false := by
    simp [autosaveGate, seedDocument]
  have hg2 : get ({ hideDue s t with activeId := id } : EditorState).store id = none := by
    show get (hideDue s t).store id = none
    rw [hideDue_store]
    exact hg
  have hload : loadDocument (hideDue s t) t id =
      { hideDue s t with activeId := id, doc := seedDocument id } := by
    simp only [loadDocument, hg2]
    rw [setDocument_ungated _ t _ hseed]
  have hrun : runEvents oracle s [(t, Event.navigate id)] =
      { hideDue s t with activeId := id, doc := seedDocument id } := by
    simp only [runEvents, List.foldl_cons, List.foldl_nil, step, tick, hfd]
    exact hload
  have hpend : ({ hideDue s t with activeId := id, doc := seedDocument id }
      : EditorState).pending = none := by
    show (hideDue s t).pending = none
    rw [hideDue_pending]
    exact hp
  have hfl := flush_of_none oracle
    { hideDue s t with activeId := id, doc := seedDocument id } hpend
  refine ⟨?_, ?_, ?_, ?_⟩
  · show (flush oracle (runEvents oracle s [(t, Event.navigate id)])).doc = _
    rw [hrun, hfl.2.2.2.1]
  · show (flush oracle (runEvents oracle s [(t, Event.navigate id)])).store = _
    rw [hrun, hfl.2.1]
    show (hideDue s t).store = s.store
    exact hideDue_store s t
  · show (flush oracle (runEvents oracle s [(t, Event.navigate id)])).puts = _
    rw [hrun, hfl.1]
    show (hideDue s t).puts = s.puts
    exact hideDue_puts s t
  · show ∀ d ∈ getAll (flush oracle (runEvents oracle s [(t, Event.navigate id)])).store,
      d.docId ≠ id
    rw [hrun, hfl.2.1]
    show ∀ d ∈ getAll (hideDue s t).store, d.docId ≠ id
    rw [hideDue_store]
    exact get_eq_none_not_mem s.store id hg

/-- Witness for `activation_no_write`: navigating to the fresh identifier b
from a session on a with one stored record writes nothing. -/
theorem activation_no_write_witness :
    (({ activeId := "a", doc := { docId := "a", title := "T", body := "x" },
        pending := none, store := [{ docId := "a", title := "T", body := "x" }],
        puts := [], indicator := false, indicatorHide := none, messages := [] }
        : EditorState).pending = none ∧
      get [{ docId := "a", title := "T", body := "x" }] "b" = none) ∧
    (run (fun _ => true)
      { activeId := "a", doc := { docId := "a", title := "T", body := "x" },
        pending := none, store := [{ docId := "a", title := "T", body := "x" }],
        puts := [], indicator := false, indicatorHide := none, messages := [] }
      [(7, Event.navigate "b")]).store
        = [{ docId := "a", title := "T", body := "x" }] := by
  refine ⟨⟨by decide, by decide⟩, ?_⟩
  exact (activation_no_write (fun _ => true)
    { activeId := "a", doc := { docId := "a", title := "T", body := "x" },
      pending := none, store := [{ docId := "a", title := "T", body := "x" }],
      puts := [], indicator := false, indicatorHide := none, messages := [] }
    "b" 7 (by decide) (by decide)).2.1

/-- C9 counterexample: document n has a stored record with body "hello"; the
body is cleared (the gate blocks the autosave notification) and the manual
save action is invoked 100 ms later.  The empty-body snapshot is put at
1100 ms, overwriting the stored record: the store does not retain the previous
content while the emptiness lasts. -/
theorem manual_save_persists_empty_cex :
    get (run (fun _ => true)
      { activeId := "n", doc := { docId := "n", title := "Note", body := "hello" },
        pending := none,
        store := [{ docId := "n", title := "Note", body := "hello" }],
        puts := [], indicator := false, indicatorHide := none, messages := [] }
      [(0, Event.change { docId := "n", title := "Note", body := "" }),
       (100, Event.manualSave)]).store "n"
      = some { docId := "n", title := "Note", body := "" } ∧
    (run (fun _ => true)
      { activeId := "n", doc := { docId := "n", title := "Note", body := "hello" },
        pending := none,
        store := [{ docId := "n", title := "Note", body := "hello" }],
        puts := [], indicator := false, indicatorHide := none, messages := [] }
      [(0, Event.change { docId := "n", title := "Note", body := "" }),
       (100, Event.manualSave)]).puts
      = [(1100, { docId := "n", title := "Note", body := "" })] := by
  exact ⟨by decide, by decide⟩

theorem runEvents_ungated (oracle : Nat → Bool) (s : EditorState)
    (es : List (Nat × Document))
    (hp : s.pending = none)
    (hgate : es.all (fun p => !autosaveGate p.2) = true) :
    (runEvents oracle s (es.map fun p => (p.1, Event.change p.2))).store = s.store ∧
    (runEvents oracle s (es.map fun p => (p.1, Event.change p.2))).puts = s.puts ∧
    (runEvents oracle s (es.map fun p => (p.1, Event.change p.2))).pending = none := by
  induction es generalizing s with
  | nil => exact ⟨rfl, rfl, hp⟩
  | cons q rest ih =>
    obtain ⟨t1, d1⟩ := q
    simp only [List.all_cons, Bool.and_eq_true, Bool.not_eq_eq_eq_not, Bool.not_true] at hgate
    have hg1 : autosaveGate d1 = false := hgate.1
    have hfd : fireAll oracle (t1 + 1) s t1 = s := fireAll_of_none oracle (t1 + 1) s t1 hp
    have hstep : step oracle s (t1, Event.change d1) =
        { hideDue s t1 with doc := d1 } := by
      simp only [step, tick, hfd]
      exact setDocument_ungated (hideDue s t1) t1 d1 hg1
    have hpend : ({ hideDue s t1 with doc := d1 } : EditorState).pending = none := by
      show (hideDue s t1).pending = none
      rw [hideDue_pending]
      exact hp
    have ihap := ih { hideDue s t1 with doc := d1 } hpend
      (by simpa [List.all_eq_true] using hgate.2)
    simp only [List.map_cons, runEvents, List.foldl_cons] at ihap ⊢
    rw [hstep]
    refine ⟨?_, ?_, ihap.2.2⟩
    · rw [ihap.1]
      show (hideDue s t1).store = s.store
      exact hideDue_store s t1
    · rw [ihap.2.1]
      show (hideDue s t1).puts = s.puts
      exact hideDue_puts s t1

/-- C9 (amended): while the in-memory title or body is empty, the autosave
path issues no put — every content-change notification failing the gate leaves
the store and the puts log unchanged, so a previously stored record keeps its
content for as long as the emptiness lasts.  The manual save action, however,
does put the empty snapshot and overwrites the stored record (see the
counterexample). -/
theorem empty_edits_not_autosaved (oracle : Nat → Bool) (s : EditorState)
    (es : List (Nat × Document))
    (hp : s.pending = none)
    (hgate : es.all (fun p => !autosaveGate p.2) = true) :
    (run oracle s (es.map fun p => (p.1, Event.change p.2))).store = s.store ∧
    (run oracle s (es.map fun p => (p.1, Event.change p.2))).puts = s.puts := by
  have hre := runEvents_ungated oracle s es hp hgate
  have hfl := flush_of_none oracle
    (runEvents oracle s (es.map fun p => (p.1, Event.change p.2))) hre.2.2
  constructor
  · show (flush oracle (runEvents oracle s (es.map fun p => (p.1, Event.change p.2)))).store = _
    rw [hfl.2.1, hre.1]
  · show (flush oracle (runEvents oracle s (es.map fun p => (p.1, Event.change p.2)))).puts = _
    rw [hfl.1, hre.2.1]

/-- Witness for `empty_edits_not_autosaved`: clearing the body and then the
title leaves the stored record for n untouched by autosave. -/
theorem empty_edits_not_autosaved_witness :
    (({ activeId := "n", doc := { docId := "n", title := "Note", body := "hello" },
        pending := none,
        store := [{ docId := "n", title := "Note", body := "hello" }],
        puts := [], indicator := false, indicatorHide := none, messages := [] }
        : EditorState).pending = none ∧
      ([(0, { docId := "n", title := "Note", body := "" }),
        (200, { docId := "n", title := "", body := "" })]
        : List (Nat × Document)).all (fun p => !autosaveGate p.2) = true) ∧
    (run (fun _ => true)
      { activeId := "n", doc := { docId := "n", title := "Note", body := "hello" },
        pending := none,
        store := [{ docId := "n", title := "Note", body := "hello" }],
        puts := [], indicator := false, indicatorHide := none, messages := [] }
      ([(0, { docId := "n", title := "Note", body := "" }),
        (200, { docId := "n", title := "", body := "" })].map
          fun p => (p.1, Event.change p.2))).store
      = [{ docId := "n", title := "Note", body := "hello" }] := by
  refine ⟨⟨by decide, by decide⟩, ?_⟩
  exact (empty_edits_not_autosaved (fun _ => true)
    { activeId := "n", doc := { docId := "n", title := "Note", body := "hello" },
      pending := none,
      store := [{ docId := "n", title := "Note", body := "hello" }],
      puts := [], indicator := false, indicatorHide := none, messages := [] }
    [(0, { docId := "n", title := "Note", body := "" }),
     (200, { docId := "n", title := "", body := "" })]
    (by decide) (by decide)).1

end Docs
